import Mathlib

/-!
Verification of the GlanceThing ADB device-management module.

The definitions below are a shallow embedding of the TypeScript module that
drives the CarThing device through the `adb` bridge executable.  Pure string
processing (`split`, `includes`, leading-token extraction) is modelled on
`List Char`; JavaScript numbers that only ever hold integer register values
are modelled as `Int`, while the normalized brightness fraction and the
intermediate interpolation arithmetic are modelled as `Rat`
(`Math.round` becomes `fun x => Int.floor (x + 1/2)`, which matches
JavaScript's round-half-toward-positive-infinity behaviour; the register
values involved are small integers, so the double-precision evaluation of
the source and the exact rational evaluation coincide on everything proved
here).  Effectful functions are modelled as pure functions of the text
returned by the command runner `execAsync`, whose failure sentinel `null`
is `Option.none`; thrown JavaScript errors become `Except.error`.
-/

namespace GlanceThing

/-- Model of JavaScript `String.prototype.split` with a single-character
separator, on character lists.  `split` never returns an empty array:
splitting the empty string yields `[[]]`. -/
def jsSplitList (sep : Char) : List Char → List (List Char)
  | [] => [[]]
  | c :: cs =>
    let r := jsSplitList sep cs
    if c == sep then [] :: r
    else
      match r with
      | [] => [[c]]
      | h :: t => (c :: h) :: t

/-- `jsSplit s sep` models `s.split(sep)` for a one-character separator. -/
def jsSplit (s : String) (sep : Char) : List String :=
  (jsSplitList sep s.data).map String.mk

/-- `listStartsWith s pat` is true when `pat` is an initial segment of `s`. -/
def listStartsWith : List Char → List Char → Bool
  | _, [] => true
  | [], _ :: _ => false
  | c :: cs, p :: ps => c == p && listStartsWith cs ps

/-- `listHasSub pat s` is true when `pat` occurs as a contiguous run
inside `s`; it models JavaScript substring search. -/
def listHasSub (pat : List Char) : List Char → Bool
  | [] => pat.isEmpty
  | c :: cs => listStartsWith (c :: cs) pat || listHasSub pat cs

/-- Model of JavaScript `String.prototype.includes`. -/
def strIncludes (s pat : String) : Bool :=
  listHasSub pat.data s.data

/-- JavaScript falsiness of a `string | null` value: `null` (here `none`)
and the empty string are falsy, every other string is truthy. -/
def jsFalsy : Option String → Bool
  | none => true
  | some s => s == ""

/-- Model of JavaScript `Math.round` on the rational model of JS numbers:
round half toward positive infinity. -/
def jsRound (x : ℚ) : ℤ :=
  ⌊x + 1 / 2⌋

/-- `parseBrightness` from the source: `1 - parseInt(brightness) / 255`.
The string argument of the source is modelled by the integer that
`parseInt` yields on it. -/
def parseBrightness (raw : ℤ) : ℚ :=
  1 - (raw : ℚ) / 255

/-- `formatBrightness` from the source: `255 - Math.round(brightness * 255)`. -/
def formatBrightness (brightness : ℚ) : ℤ :=
  255 - jsRound (brightness * 255)

/-- The value written by step `i` (for `i = 1, ..., 10`) of the ramp loop in
`setBrightnessSmooth`:
`Math.round(currentValue + (targetValue - currentValue) * (i / steps))`
with `steps = 10`. -/
def smoothStepValue (currentValue targetValue : ℤ) (i : ℕ) : ℤ :=
  jsRound ((currentValue : ℚ) +
    ((targetValue : ℚ) - (currentValue : ℚ)) * ((i : ℚ) / 10))

/-- The trace of raw values written by `setBrightnessSmooth`, as a function
of the current raw value read back from the device and the normalized
brightness argument.  The source computes
`targetValue = Math.max(formatBrightness(brightness), 1)` and then loops
`for (let i = 1; i <= steps; i++)` with `steps = 10`, issuing one write
per iteration with no early exit. -/
def setBrightnessSmoothWrites (currentValue : ℤ) (brightness : ℚ) : List ℤ :=
  let targetValue := max (formatBrightness brightness) 1
  (List.range 10).map (fun k => smoothStepValue currentValue targetValue (k + 1))

/-- The pure core of `getDevices` from the source, applied to the text
output of `adb devices`:
`res.split('\n').filter(line => line.includes('\tdevice')).map(line => line.split('\t')[0])`. -/
def parseDevicesOutput (s : String) : List String :=
  ((jsSplit s '\n').filter (fun line => strIncludes line "\tdevice")).map
    (fun line => (jsSplit line '\t').headD "")

/-- `getDevices` from the source, as a function of the command runner's
result for `adb devices`.  When `execAsync` returns its `null` failure
sentinel, `res.split('\n')` throws a `TypeError` in JavaScript, modelled
as `Except.error`. -/
def getDevices (res : Option String) : Except String (List String) :=
  match res with
  | none => .error "TypeError: res is null"
  | some s => .ok (parseDevicesOutput s)

/-- `checkValidDevice` from the source, as a function of the listing of
`/usr/share/qt-superbird-app/webapp/`: `res.includes('index.html')`. -/
def checkValidDevice (res : String) : Bool :=
  strIncludes res "index.html"

/-- The install marker file created by `installApp`
(`touch /tmp/webapp/.glancething`) and queried by `checkInstalledApp`. -/
def markerFileName : String :=
  ".glancething"

/-- Modelled from the spec (for comparison with `checkValidDevice`):
"return true iff the listing contains the expected marker file name",
where the marker file is the `.glancething` install sentinel. -/
def isValidDeviceSpec (res : String) : Bool :=
  strIncludes res markerFileName

/-- Modelled from the spec (for comparison with `parseDevicesOutput`):
"keep only lines whose device-state field is exactly \"device\"", the
device-state field being the token after the first tab. -/
def listDevicesSpec (s : String) : List String :=
  ((jsSplit s '\n').filter (fun line => (jsSplit line '\t').getD 1 "" == "device")).map
    (fun line => (jsSplit line '\t').headD "")

/-- The candidate loop of `findCarThing`, instrumented with the number of
validation commands issued.  `valid` is the behaviour of
`checkValidDevice` on each candidate; it may throw, since its own
`execAsync` result can be `null`. -/
def findLoopInstr (valid : String → Except String Bool) :
    List String → Except String (Option String) × ℕ
  | [] => (.ok none, 0)
  | d :: ds =>
    match valid d with
    | .error e => (.error e, 1)
    | .ok true => (.ok (some d), 1)
    | .ok false =>
      let r := findLoopInstr valid ds
      (r.1, r.2 + 1)

/-- `findCarThing` from the source, as a function of the `adb devices`
command result and the validation behaviour, instrumented with the number
of validation commands issued.  Returns `.ok none` when no valid device
is found, and `.ok (some d)` for the first candidate that validates. -/
def findCarThing (listRes : Option String)
    (valid : String → Except String Bool) :
    Except String (Option String) × ℕ :=
  match getDevices listRes with
  | .error e => (.error e, 0)
  | .ok devices => findLoopInstr valid devices

/-- `checkInstalledApp` from the source, as a function of the listing of
the marker file path: `!res.includes('No such file or directory')`. -/
def checkInstalledApp (res : String) : Bool :=
  !(strIncludes res "No such file or directory")

/-- Outcome of the device-resolution prelude shared by every public device
operation. -/
structure ResolveOutcome where
  result : Except String String
  invokedFind : Bool

/-- The device-resolution prelude that opens every public device operation
(`restartChromium`, `setAutoBrightness`, `getBrightness`, `setBrightness`,
`setBrightnessSmooth`, `restore`, `installApp`, `checkInstalledApp`,
`forwardSocketServer`):
`if (!device) device = await findCarThing(); if (!device) throw new Error('No valid CarThing found')`.
`device` is the optional identifier argument and `findResult` the value
`findCarThing` would return if invoked.  JavaScript's `!device` test is
falsiness: it treats both `null` and the empty string as absent. -/
def resolveDevice (device : Option String) (findResult : Option String) :
    ResolveOutcome :=
  if jsFalsy device then
    if jsFalsy findResult then
      { result := .error "No valid CarThing found", invokedFind := true }
    else
      { result := .ok (findResult.getD ""), invokedFind := true }
  else
    { result := .ok (device.getD ""), invokedFind := false }

/-- Which branch of `getAdbExecutable` produced its outcome. -/
inductive AdbBranch
  | fastPath
  | cacheHit
  | downloadPath
  deriving DecidableEq

/-- The environment observed by one call to `getAdbExecutable`:
the result of `execAsync('adb version')`, whether `platform()` is
`'darwin'`, whether a file already exists at the computed install path,
the two path components of that install path, the HTTP status of the
`axios.get` download, and the result of the `tar` extraction command. -/
structure AdbEnv where
  adbVersionRes : Option String
  darwin : Bool
  adbFileExists : Bool
  userDataPath : String
  executable : String
  downloadStatus : ℕ
  extractRes : Option String

/-- The install path `path.join(userData, 'platform-tools', executable)`. -/
def adbPath (env : AdbEnv) : String :=
  env.userDataPath ++ "/platform-tools/" ++ env.executable

/-- The quoted install path returned by the cache-hit and download
branches: `` `"${adbPath}"` ``. -/
def quotedAdbPath (env : AdbEnv) : String :=
  "\"" ++ adbPath env ++ "\""

/-- Observable outcome of one call to `getAdbExecutable`: its return value
or thrown error, whether an HTTP request was issued, which branch ran,
and whether the install file exists afterwards. -/
structure AdbOutcome where
  result : Except String String
  httpRequested : Bool
  branch : AdbBranch
  fileExistsAfter : Bool

/-- `getAdbExecutable` from the source.  Fast path: if
`execAsync('adb version')` returned a truthy value and the platform is not
`'darwin'`, return the bare name `'adb'`.  Otherwise, if a file exists at
the computed install path, return its quoted path with no download
(cache hit).  Otherwise download (HTTP GET; a status other than 200 throws
`adb_download_failed`), then extract (a `null` extraction result throws
`adb_extract_failed`), and return the quoted install path. -/
def getAdbExecutable (env : AdbEnv) : AdbOutcome :=
  if !(jsFalsy env.adbVersionRes) && !env.darwin then
    { result := .ok "adb", httpRequested := false,
      branch := .fastPath, fileExistsAfter := env.adbFileExists }
  else if env.adbFileExists then
    { result := .ok (quotedAdbPath env), httpRequested := false,
      branch := .cacheHit, fileExistsAfter := true }
  else if env.downloadStatus ≠ 200 then
    { result := .error "adb_download_failed", httpRequested := true,
      branch := .downloadPath, fileExistsAfter := false }
  else if env.extractRes = none then
    { result := .error "adb_extract_failed", httpRequested := true,
      branch := .downloadPath, fileExistsAfter := false }
  else
    { result := .ok (quotedAdbPath env), httpRequested := true,
      branch := .downloadPath, fileExistsAfter := true }

/-- A concrete environment in which the first call to `getAdbExecutable`
provisions the bridge: `adb version` fails, the platform is not darwin,
no file is installed yet, the download returns status 200 and the
extraction succeeds. -/
def sampleAdbEnv : AdbEnv :=
  { adbVersionRes := none, darwin := false, adbFileExists := false,
    userDataPath := "/home/user/.config/glancething", executable := "adb",
    downloadStatus := 200, extractRes := some "" }

/-! ## Helper lemmas -/

theorem listStartsWith_iff (s pat : List Char) :
    listStartsWith s pat = true ↔ ∃ r, s = pat ++ r := by
  induction pat generalizing s with
  | nil =>
    simp [listStartsWith]
  | cons p ps ih =>
    cases s with
    | nil => simp [listStartsWith]
    | cons c cs =>
      simp [listStartsWith, ih, beq_iff_eq]

theorem listHasSub_iff (pat s : List Char) :
    listHasSub pat s = true ↔ ∃ l r, s = l ++ pat ++ r := by
  induction s with
  | nil =>
    simp [listHasSub, List.isEmpty_iff]
  | cons c cs ih =>
    simp only [listHasSub, Bool.or_eq_true, listStartsWith_iff, ih]
    constructor
    · rintro (⟨r, hr⟩ | ⟨l, r, hr⟩)
      · exact ⟨[], r, by simp [hr]⟩
      · exact ⟨c :: l, r, by simp [hr]⟩
    · rintro ⟨l, r, hr⟩
      cases l with
      | nil =>
        left
        exact ⟨r, by simpa using hr⟩
      | cons a l' =>
        right
        simp at hr
        exact ⟨l', r, by simp [hr.2]⟩

theorem jsSplitList_ne_nil (sep : Char) (l : List Char) :
    jsSplitList sep l ≠ [] := by
  cases l with
  | nil => simp [jsSplitList]
  | cons c cs =>
    simp only [jsSplitList]
    by_cases h : (c == sep) = true
    · simp [h]
    · simp only [h]
      cases jsSplitList sep cs with
      | nil => simp
      | cons hd tl => simp

theorem jsSplitList_head (sep : Char) (l : List Char) :
    (jsSplitList sep l).head? = some (l.takeWhile (fun c => !(c == sep))) := by
  induction l with
  | nil => simp [jsSplitList]
  | cons c cs ih =>
    simp only [jsSplitList, List.takeWhile]
    by_cases h : (c == sep) = true
    · simp [h]
    · simp only [h]
      cases hr : jsSplitList sep cs with
      | nil => exact absurd hr (jsSplitList_ne_nil sep cs)
      | cons hd tl =>
        rw [hr] at ih
        simp at ih
        simp [h, ih]

theorem jsSplit_headD (s : String) (sep : Char) :
    (jsSplit s sep).headD "" =
      String.mk (s.data.takeWhile (fun c => !(c == sep))) := by
  unfold jsSplit
  cases hr : jsSplitList sep s.data with
  | nil => exact absurd hr (jsSplitList_ne_nil sep s.data)
  | cons hd tl =>
    have h := jsSplitList_head sep s.data
    rw [hr] at h
    simp at h
    simp [h]

theorem jsRound_intCast (n : ℤ) : jsRound (n : ℚ) = n := by
  unfold jsRound
  rw [Int.floor_int_add]
  norm_num

theorem jsRound_mono {x y : ℚ} (h : x ≤ y) : jsRound x ≤ jsRound y :=
  Int.floor_le_floor (by linarith)

theorem jsRound_int_le {n : ℤ} {x : ℚ} (h : (n : ℚ) ≤ x) : n ≤ jsRound x := by
  have := jsRound_mono h
  rwa [jsRound_intCast] at this

theorem jsRound_le_int {n : ℤ} {x : ℚ} (h : x ≤ (n : ℚ)) : jsRound x ≤ n := by
  have := jsRound_mono h
  rwa [jsRound_intCast] at this

theorem smoothStepValue_ten (c t : ℤ) : smoothStepValue c t 10 = t := by
  unfold smoothStepValue
  have h : ((c : ℚ) + ((t : ℚ) - (c : ℚ)) * (((10 : ℕ) : ℚ) / 10)) = ((t : ℤ) : ℚ) := by
    push_cast
    ring
  rw [h, jsRound_intCast]

theorem formatBrightness_parseBrightness (raw : ℤ) :
    formatBrightness (parseBrightness raw) = raw := by
  unfold formatBrightness
  have h : parseBrightness raw * 255 = ((255 - raw : ℤ) : ℚ) := by
    unfold parseBrightness
    push_cast
    ring
  rw [h, jsRound_intCast]
  ring

theorem setBrightnessSmoothWrites_length (c : ℤ) (b : ℚ) :
    (setBrightnessSmoothWrites c b).length = 10 := by
  simp [setBrightnessSmoothWrites]

theorem setBrightnessSmoothWrites_last (c : ℤ) (b : ℚ) :
    (setBrightnessSmoothWrites c b).getLast? =
      some (smoothStepValue c (max (formatBrightness b) 1) 10) := by
  rfl

theorem jsFalsy_iff (o : Option String) :
    jsFalsy o = true ↔ (o = none ∨ o = some "") := by
  cases o with
  | none => simp [jsFalsy]
  | some s => simp [jsFalsy]

/-! ## Claim theorems -/

/-- Claim C1: for every normalized brightness input `b` and every current
raw value `c` read back from the device, `setBrightnessSmooth` issues
exactly 10 brightness write commands regardless of the distance between
current and target, and the value written by the 10th (final) write equals
`max(formatBrightness(b), 1)`. -/
theorem setBrightnessSmooth_ten_writes (c : ℤ) (b : ℚ) :
    (setBrightnessSmoothWrites c b).length = 10
    ∧ (setBrightnessSmoothWrites c b).getLast?
        = some (max (formatBrightness b) 1) := by
  refine ⟨setBrightnessSmoothWrites_length c b, ?_⟩
  rw [setBrightnessSmoothWrites_last c b, smoothStepValue_ten]

/-- Claim C2: for every integer raw value in `[0, 255]`,
`formatBrightness(parseBrightness(raw))` differs from `raw` by at most 1
(in fact the round trip is exact); moreover `parseBrightness 0 = 1` and
`parseBrightness 255 = 0`. -/
theorem brightness_roundtrip (raw : ℤ) (h0 : 0 ≤ raw) (h255 : raw ≤ 255) :
    |formatBrightness (parseBrightness raw) - raw| ≤ 1
    ∧ parseBrightness 0 = 1 ∧ parseBrightness 255 = 0 := by
  refine ⟨?_, by unfold parseBrightness; norm_num, by unfold parseBrightness; norm_num⟩
  rw [formatBrightness_parseBrightness]
  simp

/-- Witness for claim C2, at `raw = 128`. -/
theorem brightness_roundtrip_witness :
    |formatBrightness (parseBrightness 128) - 128| ≤ 1
    ∧ parseBrightness 0 = 1 ∧ parseBrightness 255 = 0 :=
  brightness_roundtrip 128 (by decide) (by decide)

/-- Counterexample for claim C3: the filter of `getDevices` tests substring
containment of `"\tdevice"`, not equality of the device-state field with
`"device"`.  On the listing line `"A\tdevicex"` the device-state field is
`"devicex"`, yet the code keeps the line and returns `["A"]`, while the
claimed filter (modelled by `listDevicesSpec`) returns `[]`. -/
theorem getDevices_filter_cex :
    parseDevicesOutput "A\tdevicex" = ["A"]
    ∧ listDevicesSpec "A\tdevicex" = [] :=
  ⟨rfl, rfl⟩

/-- Claim C3 (amended): `getDevices` keeps exactly those lines that contain
the substring `"\tdevice"` (a line whose state field merely extends the
word `device` is also kept), and returns, in the order produced by the
bridge, each kept line's leading token — the text before the first tab;
for the lines `"X\tdevice"`, `"Y\tunauthorized"`, `"Z\tdevice"` it returns
exactly `["X", "Z"]` in that order. -/
theorem getDevices_filter_amended :
    (∀ line : String, strIncludes line "\tdevice" = true
      ↔ ∃ l r, line.data = l ++ "\tdevice".data ++ r) ∧
    (∀ s : String, parseDevicesOutput s =
      ((jsSplit s '\n').filter (fun line => strIncludes line "\tdevice")).map
        (fun line => String.mk (line.data.takeWhile (fun ch => !(ch == '\t'))))) ∧
    parseDevicesOutput "X\tdevice\nY\tunauthorized\nZ\tdevice" = ["X", "Z"] := by
  refine ⟨fun line => listHasSub_iff "\tdevice".data line.data, fun s => ?_, rfl⟩
  unfold parseDevicesOutput
  have h : (fun line => (jsSplit line '\t').headD "")
      = (fun line : String => String.mk (line.data.takeWhile (fun ch => !(ch == '\t')))) :=
    funext (fun line => jsSplit_headD line '\t')
  rw [h]

/-- Counterexample for claim C4: `checkValidDevice` looks for
`"index.html"` in the listing, not for the install marker file
`.glancething`.  A listing that shows only the marker file is rejected,
and a listing that shows only `index.html` is accepted, in both cases the
opposite of the claim (`isValidDeviceSpec` models the claimed check). -/
theorem checkValidDevice_marker_cex :
    (checkValidDevice ".glancething" = false
      ∧ isValidDeviceSpec ".glancething" = true)
    ∧ (checkValidDevice "index.html" = true
      ∧ isValidDeviceSpec "index.html" = false) :=
  ⟨⟨rfl, rfl⟩, ⟨rfl, rfl⟩⟩

/-- Claim C4 (amended): `checkValidDevice` returns true iff the remote
directory listing of the web-app mount path contains the substring
`"index.html"` — the stock web app's entry file, not the install marker. -/
theorem checkValidDevice_marker_amended (res : String) :
    checkValidDevice res = true ↔ ∃ l r, res.data = l ++ "index.html".data ++ r :=
  listHasSub_iff "index.html".data res.data

/-- Claim C5: after one call to `getAdbExecutable` that successfully
provisioned the bridge through the download branch, a subsequent call in
the same environment — now with the installed file present — returns the
quoted install path via the cache-hit branch and issues no HTTP request. -/
theorem getAdbExecutable_cache_hit (e : AdbEnv)
    (hprov : (getAdbExecutable e).branch = .downloadPath)
    (hok : (getAdbExecutable e).result = .ok (quotedAdbPath e)) :
    (getAdbExecutable { e with adbFileExists := true }).result = .ok (quotedAdbPath e)
    ∧ (getAdbExecutable { e with adbFileExists := true }).httpRequested = false
    ∧ (getAdbExecutable { e with adbFileExists := true }).branch = .cacheHit := by
  have hcond : (!(jsFalsy e.adbVersionRes) && !e.darwin) = false := by
    cases hb : (!(jsFalsy e.adbVersionRes) && !e.darwin) with
    | false => rfl
    | true =>
      rw [getAdbExecutable, if_pos hb] at hprov
      exact absurd hprov (by simp)
  have hcond2 : (!(jsFalsy ({ e with adbFileExists := true } : AdbEnv).adbVersionRes)
      && !({ e with adbFileExists := true } : AdbEnv).darwin) = false := hcond
  refine ⟨?_, ?_, ?_⟩ <;>
    (rw [getAdbExecutable, if_neg (by simp [hcond2]), if_pos rfl] <;> rfl)

/-- Witness for claim C5, at the concrete environment `sampleAdbEnv` in
which the first call provisions through the download branch. -/
theorem getAdbExecutable_cache_hit_witness :
    (getAdbExecutable { sampleAdbEnv with adbFileExists := true }).result
        = .ok (quotedAdbPath sampleAdbEnv)
    ∧ (getAdbExecutable { sampleAdbEnv with adbFileExists := true }).httpRequested = false
    ∧ (getAdbExecutable { sampleAdbEnv with adbFileExists := true }).branch = .cacheHit :=
  getAdbExecutable_cache_hit sampleAdbEnv rfl rfl

/-- Claim C6: for every successful listing result of the install-marker
path, `checkInstalledApp` returns false when the result contains the
substring `"No such file or directory"`, and returns true for any other
non-empty listing result. -/
theorem checkInstalledApp_no_such_file (res : String) :
    ((∃ l r, res.data = l ++ "No such file or directory".data ++ r) →
      checkInstalledApp res = false) ∧
    (res ≠ "" →
      (¬ ∃ l r, res.data = l ++ "No such file or directory".data ++ r) →
      checkInstalledApp res = true) := by
  constructor
  · intro hEx
    have h : strIncludes res "No such file or directory" = true :=
      (listHasSub_iff _ _).mpr hEx
    simp [checkInstalledApp, h]
  · intro hne hEx
    have h : strIncludes res "No such file or directory" = false := by
      cases hb : strIncludes res "No such file or directory"
      · rfl
      · exact absurd ((listHasSub_iff _ _).mp hb) hEx
    simp [checkInstalledApp, h]

/-- Witness for claim C6: an error listing yields false, and a listing
that names the marker file yields true. -/
theorem checkInstalledApp_no_such_file_witness :
    checkInstalledApp "No such file or directory" = false
    ∧ checkInstalledApp "/tmp/webapp/.glancething" = true :=
  ⟨(checkInstalledApp_no_such_file "No such file or directory").1 ⟨[], [], rfl⟩,
    (checkInstalledApp_no_such_file "/tmp/webapp/.glancething").2 (by decide)
      (fun hEx => absurd ((listHasSub_iff _ _).mpr hEx) (by decide))⟩

/-- Claim C7: whenever the device listing yields an empty device list,
`findCarThing` returns the "not found" result `.ok none` — not an
exception — and issues zero validation commands. -/
theorem findCarThing_empty_short_circuit (s : String)
    (valid : String → Except String Bool)
    (h : parseDevicesOutput s = []) :
    findCarThing (some s) valid = (.ok none, 0) := by
  simp [findCarThing, getDevices, h, findLoopInstr]

/-- Witness for claim C7: the header-only listing yields no devices, and
`findCarThing` returns `.ok none` with zero validation calls even though
the validator would throw if it were invoked. -/
theorem findCarThing_empty_short_circuit_witness :
    findCarThing (some "List of devices attached") (fun _ => .error "boom")
      = (.ok none, 0) :=
  findCarThing_empty_short_circuit "List of devices attached"
    (fun _ => .error "boom") rfl

/-- Claim C8 counterexample: the prelude tests JavaScript falsiness, not
nullness.  With the non-null identifier `""` supplied, discovery is
invoked anyway (here finding nothing), and the "no device" error is
raised; and with no identifier supplied, a discovery result of `""` —
something, not nothing — still raises the error. -/
theorem resolveDevice_falsy_cex :
    ((resolveDevice (some "") none).invokedFind = true
      ∧ (resolveDevice (some "") none).result = .error "No valid CarThing found")
    ∧ (resolveDevice none (some "")).result = .error "No valid CarThing found" :=
  ⟨⟨rfl, rfl⟩, rfl⟩

/-- Claim C8 (amended): in the resolution prelude shared by every public
device operation, when the supplied identifier is absent or the empty
string, `findCarThing` is invoked and the "no device" error is raised
exactly when discovery yields nothing or an empty token; when a non-null,
non-empty identifier is supplied, no discovery is performed, the error is
not raised, and the operation proceeds with that identifier. -/
theorem resolveDevice_resolution_amended (device findResult : Option String) :
    ((device = none ∨ device = some "") →
      (resolveDevice device findResult).invokedFind = true
      ∧ ((resolveDevice device findResult).result = .error "No valid CarThing found"
          ↔ (findResult = none ∨ findResult = some ""))) ∧
    (∀ s : String, device = some s → s ≠ "" →
      (resolveDevice device findResult).invokedFind = false
      ∧ (resolveDevice device findResult).result = .ok s) := by
  constructor
  · intro hdev
    have hf : jsFalsy device = true := (jsFalsy_iff device).mpr hdev
    refine ⟨?_, ?_⟩
    · cases hr : jsFalsy findResult <;> simp [resolveDevice, hf, hr]
    · rw [show (findResult = none ∨ findResult = some "") ↔ jsFalsy findResult = true
          from (jsFalsy_iff findResult).symm]
      cases hr : jsFalsy findResult <;> simp [resolveDevice, hf, hr]
  · intro s hdev hs
    subst hdev
    constructor <;> simp [resolveDevice, jsFalsy, hs]

/-- Witness for claim C8 (amended): with the non-empty identifier
`"ABC123"` supplied, no discovery happens and the prelude succeeds. -/
theorem resolveDevice_resolution_witness :
    (resolveDevice (some "ABC123") none).invokedFind = false
      ∧ (resolveDevice (some "ABC123") none).result = .ok "ABC123" :=
  (resolveDevice_resolution_amended (some "ABC123") none).2 "ABC123" rfl (by decide)

/-- Claim C9: if the device-list command fails (the command runner returns
its `null` failure sentinel), `findCarThing` raises an error — the
`TypeError` from `null.split` — rather than returning the "none found"
result; `.ok none` is returned only when the device-list command
succeeded. -/
theorem findCarThing_list_failure (valid : String → Except String Bool) :
    (findCarThing none valid).1 = .error "TypeError: res is null"
    ∧ (∀ listRes : Option String,
        (findCarThing listRes valid).1 = .ok none → listRes.isSome = true) := by
  constructor
  · rfl
  · intro listRes h
    cases listRes with
    | none => simp [findCarThing, getDevices] at h
    | some s => rfl

/-- Witness for claim C9: a run over the listing `"nothing here"` returns
`.ok none`, and the theorem certifies that its device-list command
succeeded. -/
theorem findCarThing_list_failure_witness :
    (findCarThing none (fun _ => .ok false)).1 = .error "TypeError: res is null"
    ∧ (some "nothing here" : Option String).isSome = true :=
  ⟨(findCarThing_list_failure (fun _ => .ok false)).1,
    (findCarThing_list_failure (fun _ => .ok false)).2 (some "nothing here") rfl⟩

/-- Claim C10: for every current raw value `c` and target raw value `t`,
the values written by the ramp loop of `setBrightnessSmooth` at steps
`1 ≤ i ≤ j ≤ 10` form a monotone sequence — non-decreasing when `t ≥ c`
and non-increasing when `t ≤ c` — and every written value lies between
`min c t` and `max c t` inclusive. -/
theorem setBrightnessSmooth_monotone_bounded (c t : ℤ) (i j : ℕ)
    (hi : 1 ≤ i) (hij : i ≤ j) (hj : j ≤ 10) :
    (c ≤ t → smoothStepValue c t i ≤ smoothStepValue c t j
      ∧ c ≤ smoothStepValue c t i ∧ smoothStepValue c t i ≤ t) ∧
    (t ≤ c → smoothStepValue c t j ≤ smoothStepValue c t i
      ∧ t ≤ smoothStepValue c t i ∧ smoothStepValue c t i ≤ c) := by
  have hi10 : i ≤ 10 := le_trans hij hj
  have hdij : ((i : ℚ)) / 10 ≤ ((j : ℚ)) / 10 := by
    apply (div_le_div_iff_of_pos_right (by norm_num : (0 : ℚ) < 10)).mpr
    exact_mod_cast hij
  have hdi0 : (0 : ℚ) ≤ ((i : ℚ)) / 10 := by positivity
  have hdi1 : ((i : ℚ)) / 10 ≤ 1 := by
    apply (div_le_one (by norm_num : (0 : ℚ) < 10)).mpr
    exact_mod_cast hi10
  simp only [smoothStepValue]
  constructor
  · intro hct
    have h0 : (0 : ℚ) ≤ (t : ℚ) - (c : ℚ) := by
      have h : (c : ℚ) ≤ (t : ℚ) := by exact_mod_cast hct
      linarith
    refine ⟨jsRound_mono ?_, jsRound_int_le ?_, jsRound_le_int ?_⟩
    · have := mul_le_mul_of_nonneg_left hdij h0
      linarith
    · have := mul_nonneg h0 hdi0
      linarith
    · have := mul_le_mul_of_nonneg_left hdi1 h0
      linarith
  · intro htc
    have h0 : (t : ℚ) - (c : ℚ) ≤ 0 := by
      have h : (t : ℚ) ≤ (c : ℚ) := by exact_mod_cast htc
      linarith
    refine ⟨jsRound_mono ?_, jsRound_int_le ?_, jsRound_le_int ?_⟩
    · have := mul_le_mul_of_nonpos_left hdij h0
      linarith
    · have := mul_le_mul_of_nonpos_left hdi1 h0
      linarith
    · have := mul_le_mul_of_nonneg_right h0 hdi0
      linarith

/-- Witness for claim C10, at `c = 3`, `t = 9`, steps `i = 2` and
`j = 5`. -/
theorem setBrightnessSmooth_monotone_bounded_witness :
    smoothStepValue 3 9 2 ≤ smoothStepValue 3 9 5
    ∧ 3 ≤ smoothStepValue 3 9 2 ∧ smoothStepValue 3 9 2 ≤ 9 :=
  (setBrightnessSmooth_monotone_bounded 3 9 2 5 (by decide) (by decide)
    (by decide)).1 (by decide)

end GlanceThing
